import Mathlib

/-!
Shallow embedding of `src/app.py` (football-player tweet sentiment app).

The app has three parts relevant to the specification:
* `TwitterScraper.search_player_tweets` — builds a search query string and
  collects up to `max_tweets` results from the external `twikit` client,
  filtering out tweets older than `days_back` days; any exception from the
  client is caught and an empty list is returned.
* `SentimentAnalyzer.analyze_spanish` — lowercases the text, counts Spanish
  football keywords occurring as substrings, and either overrides the VADER
  compound score (when the keyword counts differ) or falls back to VADER
  thresholds (when they are equal).
* `main` — the Streamlit flow: rejects an empty player name, rejects missing
  credentials, logs in (cookies first, then credentials), searches, and
  analyzes each tweet.

External collaborators (the `twikit` client, the VADER model, Streamlit) are
modelled as parameters: the retrieval call is a function from the query string
to `Except String (List RawTweet)`, and the VADER compound value is a function
from the raw text to `ℚ`. Python floats are modelled as rationals; Python
string truthiness is modelled explicitly.
-/

namespace FutbolSentiment

/-- Character-wise lowercasing as used by Python's `str.lower()` on the
alphabets that appear in this app (ASCII plus the Spanish accented capitals).
Embeds the `text.lower()` call at `app.py:162`. -/
def pyCharLower (c : Char) : Char :=
  match c with
  | 'A' => 'a' | 'B' => 'b' | 'C' => 'c' | 'D' => 'd' | 'E' => 'e' | 'F' => 'f'
  | 'G' => 'g' | 'H' => 'h' | 'I' => 'i' | 'J' => 'j' | 'K' => 'k' | 'L' => 'l'
  | 'M' => 'm' | 'N' => 'n' | 'O' => 'o' | 'P' => 'p' | 'Q' => 'q' | 'R' => 'r'
  | 'S' => 's' | 'T' => 't' | 'U' => 'u' | 'V' => 'v' | 'W' => 'w' | 'X' => 'x'
  | 'Y' => 'y' | 'Z' => 'z'
  | 'Á' => 'á' | 'É' => 'é' | 'Í' => 'í' | 'Ó' => 'ó' | 'Ú' => 'ú' | 'Ñ' => 'ñ' | 'Ü' => 'ü'
  | _ => c

/-- The possible non-identity outputs of `pyCharLower`. -/
def lowersList : List Char :=
  ['a','b','c','d','e','f','g','h','i','j','k','l','m',
   'n','o','p','q','r','s','t','u','v','w','x','y','z',
   'á','é','í','ó','ú','ñ','ü']

/-- `text.lower()` on a whole string (`app.py:162`). -/
def pyLower (s : String) : String := ⟨s.data.map pyCharLower⟩

/-- The program's text normalization. The only transformation the source
applies to a tweet body before sentiment analysis is `text.lower()`
(`app.py:162`); no URL, mention, hashtag or whitespace handling exists in
the code. -/
def normalize (text : String) : String := pyLower text

/-- Python truthiness of the optional `team_name` argument
(`if team_name:` at `app.py:56`): `None` and the empty string are falsy. -/
def pyTruthy : Option String → Bool
  | none => false
  | some s => s ≠ ""

/-- Query construction of `TwitterScraper.search_player_tweets`
(`app.py:56`-`59`): with a truthy team name the query is the two quoted
phrases conjoined; otherwise the quoted player name plus a fixed keyword
group. -/
def build_query (player_name : String) (team_name : Option String) : String :=
  if pyTruthy team_name then
    "\"" ++ player_name ++ "\" \"" ++ team_name.getD "" ++ "\" lang:es -filter:retweets"
  else
    "\"" ++ player_name ++ "\" (gol OR asistencia OR partido) lang:es -filter:retweets"

/-- Positive Spanish football keywords (`app.py:147`-`151`). -/
def positive_keywords : List String :=
  ["gol", "golazo", "crack", "genio", "figura", "estrella",
   "excelente", "brillante", "increíble", "partidazo", "asistencia",
   "talento", "magia", "fenómeno", "bestia", "máquina"]

/-- Negative Spanish football keywords (`app.py:154`-`158`). -/
def negative_keywords : List String :=
  ["mal", "pésimo", "desastre", "horrible", "nefasto", "perdió",
   "error", "fallo", "expulsado", "lesión", "lesionado", "banco",
   "suplente", "fracaso"]

/-- Python's substring test `word in text`. -/
def pyIn (w t : String) : Bool := decide (List.IsInfix w.data t.data)

/-- `sum(1 for word in keywords if word in text_lower)`
(`app.py:165`-`166`). -/
def countKeywords (keywords : List String) (text_lower : String) : Nat :=
  (keywords.filter (fun w => pyIn w text_lower)).length

/-- The dictionary returned by `SentimentAnalyzer.analyze_spanish`
(`app.py:190`-`195`). -/
structure AnalysisOutput where
  sentiment : String
  score : ℚ
  pos_words : Nat
  neg_words : Nat
  deriving DecidableEq

/-- `SentimentAnalyzer.analyze_spanish` (`app.py:160`-`195`). The VADER
compound value for the text is an input, since the VADER model is an
external collaborator; Python floats are modelled as rationals. -/
def analyze_spanish (vader_compound : ℚ) (text : String) : AnalysisOutput :=
  let text_lower := pyLower text
  let pos_count := countKeywords positive_keywords text_lower
  let neg_count := countKeywords negative_keywords text_lower
  if neg_count < pos_count then
    { sentiment := "positivo", score := min (4/5 + (pos_count : ℚ) * (1/10)) 1,
      pos_words := pos_count, neg_words := neg_count }
  else if pos_count < neg_count then
    { sentiment := "negativo", score := max (-(4/5) - (neg_count : ℚ) * (1/10)) (-1),
      pos_words := pos_count, neg_words := neg_count }
  else if 5/100 ≤ vader_compound then
    { sentiment := "positivo", score := vader_compound,
      pos_words := pos_count, neg_words := neg_count }
  else if vader_compound ≤ -(5/100) then
    { sentiment := "negativo", score := vader_compound,
      pos_words := pos_count, neg_words := neg_count }
  else
    { sentiment := "neutral", score := vader_compound,
      pos_words := pos_count, neg_words := neg_count }

/-- Modelled from the spec: the external classifier token mapping
("token `POS` → Positive, `NEG` → Negative, `NEU` or any unrecognized
token → Neutral"). No token-mapping code exists under `src/`; the source's
`analyze_spanish` produces the three labels directly. -/
def label_of_token (t : String) : String :=
  if t = "POS" then "positivo"
  else if t = "NEG" then "negativo"
  else "neutral"

/-- A tweet as delivered by the external `twikit` client. `ageDays` models
the value of `(datetime.now() - tweet_date.replace(tzinfo=None)).days`
computed at `app.py:74`-`78`; the datetime library is external. -/
structure RawTweet where
  id : String
  created_at : String
  ageDays : Int
  user_name : String
  screen_name : String
  text : String
  favorite_count : Nat
  retweet_count : Nat
  reply_count : Nat
  deriving DecidableEq

/-- The per-tweet dictionary appended at `app.py:81`-`91`. -/
structure TweetData where
  id : String
  fecha : String
  usuario : String
  username : String
  contenido : String
  likes : Nat
  retweets : Nat
  replies : Nat
  url : String
  deriving DecidableEq

/-- Builds the dictionary of `app.py:81`-`91` from a raw tweet. -/
def tweetToData (t : RawTweet) : TweetData :=
  { id := t.id, fecha := t.created_at, usuario := t.user_name,
    username := t.screen_name, contenido := t.text, likes := t.favorite_count,
    retweets := t.retweet_count, replies := t.reply_count,
    url := "https://twitter.com/" ++ t.screen_name ++ "/status/" ++ t.id }

/-- The collection loop of `app.py:68`-`94`: stop once `max_tweets` results
are accumulated, skip tweets older than `days_back` days, otherwise append. -/
def collectTweets (days_back : Int) (max_tweets : Nat) :
    List RawTweet → List TweetData → List TweetData
  | [], acc => acc
  | t :: rest, acc =>
    if max_tweets ≤ acc.length then acc
    else if days_back < t.ageDays then collectTweets days_back max_tweets rest acc
    else collectTweets days_back max_tweets rest (acc ++ [tweetToData t])

/-- `TwitterScraper.search_player_tweets` (`app.py:41`-`101`).
`search_tweet` models the external `self.client.search_tweet` call: given
the query string it either returns a list of tweets or raises. A raise from
inside the `try` block is caught and `[]` is returned (`app.py:99`-`101`);
without login the method itself raises (`app.py:52`-`53`). -/
def search_player_tweets (logged_in : Bool)
    (search_tweet : String → Except String (List RawTweet))
    (player_name : String) (team_name : Option String)
    (days_back : Int) (max_tweets : Nat) : Except String (List TweetData) :=
  if logged_in then
    match search_tweet (build_query player_name team_name) with
    | Except.error _ => Except.ok []
    | Except.ok tweets => Except.ok (collectTweets days_back max_tweets tweets [])
  else Except.error "Debes hacer login primero"

/-- Outcome of one button press in `main` (`app.py:234`-`347`). `uncaught`
marks an exception that would propagate out of `main` unhandled. -/
inductive RunOutcome where
  | errorEmptyPlayer : RunOutcome
  | errorMissingCredentials : RunOutcome
  | errorLogin : String → RunOutcome
  | warningNoTweets : RunOutcome
  | uncaught : String → RunOutcome
  | analyzed : List (TweetData × AnalysisOutput) → RunOutcome
  deriving DecidableEq

/-- The `main` flow after the search button (`app.py:234`-`293`): empty
player name → error; missing credentials → error; login via cookies
(`cookie_login`) or credentials (`login_result`); then search and analyze.
`vader_compound` models the VADER model's compound output per text. -/
def main_run (player_name team_name username email password : String)
    (cookie_login : Bool) (login_result : Except String Unit)
    (search_tweet : String → Except String (List RawTweet))
    (vader_compound : String → ℚ) (days_back : Int) (max_tweets : Nat) : RunOutcome :=
  if player_name = "" then RunOutcome.errorEmptyPlayer
  else if username = "" ∨ email = "" ∨ password = "" then RunOutcome.errorMissingCredentials
  else
    match (if cookie_login then Except.ok () else login_result) with
    | Except.error e => RunOutcome.errorLogin e
    | Except.ok _ =>
      match search_player_tweets true search_tweet player_name (some team_name)
          days_back max_tweets with
      | Except.error e => RunOutcome.uncaught e
      | Except.ok [] => RunOutcome.warningNoTweets
      | Except.ok tweets =>
        RunOutcome.analyzed (tweets.map (fun td =>
          (td, analyze_spanish (vader_compound td.contenido) td.contenido)))

/-- A concrete tweet used to instantiate theorems about the search loop. -/
def sampleTweet : RawTweet :=
  { id := "1", created_at := "Mon Jan 01 00:00:00 +0000 2024", ageDays := 2,
    user_name := "Fan", screen_name := "fan1", text := "Golazo de Messi",
    favorite_count := 5, retweet_count := 1, reply_count := 0 }

/-- Each character is either fixed by `pyCharLower` or sent into `lowersList`. -/
theorem pyCharLower_cases (c : Char) : pyCharLower c = c ∨ pyCharLower c ∈ lowersList := by
  unfold pyCharLower
  split
  all_goals first | exact Or.inl rfl | exact Or.inr (by decide)

/-- `pyCharLower` fixes every character it can output. -/
theorem pyCharLower_fix : ∀ c ∈ lowersList, pyCharLower c = c := by decide

/-- `pyCharLower` is idempotent. -/
theorem pyCharLower_idem (c : Char) : pyCharLower (pyCharLower c) = pyCharLower c := by
  rcases pyCharLower_cases c with h | h
  · rw [h]
    exact h
  · exact pyCharLower_fix _ h

/-- The collection loop never grows the accumulator beyond `max_tweets`. -/
theorem collectTweets_length_le (days_back : Int) (max_tweets : Nat) :
    ∀ (ts : List RawTweet) (acc : List TweetData), acc.length ≤ max_tweets →
      (collectTweets days_back max_tweets ts acc).length ≤ max_tweets := by
  intro ts
  induction ts with
  | nil =>
    intro acc h
    exact h
  | cons t rest ih =>
    intro acc h
    by_cases hstop : max_tweets ≤ acc.length
    · simp only [collectTweets]
      rw [if_pos hstop]
      exact h
    · simp only [collectTweets]
      rw [if_neg hstop]
      by_cases hage : days_back < t.ageDays
      · rw [if_pos hage]
        exact ih acc h
      · rw [if_neg hage]
        apply ih
        rw [List.length_append]
        simp only [List.length_cons, List.length_nil]
        omega

/-- Claim C1, counterexample: for the two-token subject "Lionel Messi" with the
non-empty affiliation "Inter Miami", the built query contains no "OR" token at
all, so it cannot consist of three OR-joined clauses (full name,
first+affiliation, last+affiliation) as the claim states. -/
theorem claim_C1_counterexample :
    "Lionel Messi".data.count ' ' = 1 ∧ "Inter Miami" ≠ "" ∧
    pyIn "OR" (build_query "Lionel Messi" (some "Inter Miami")) = false := by
  refine ⟨by decide, by decide, by decide⟩

/-- Claim C1, amended: for every subject name and non-empty affiliation
(quote-free, as search inputs are), the query is the exact full-name phrase
conjoined with the exact affiliation phrase plus the fixed language and
retweet filters — exactly two quoted clauses and no OR-joined alternatives. -/
theorem claim_C1_amended_conjunctive_query (player_name team : String)
    (ht : team ≠ "") (hp : player_name.data.count '"' = 0)
    (htq : team.data.count '"' = 0) :
    build_query player_name (some team)
      = "\"" ++ player_name ++ "\" \"" ++ team ++ "\" lang:es -filter:retweets" ∧
    (build_query player_name (some team)).data.count '"' = 4 := by
  have h1 : build_query player_name (some team)
      = "\"" ++ player_name ++ "\" \"" ++ team ++ "\" lang:es -filter:retweets" := by
    simp [build_query, pyTruthy, ht]
  refine ⟨h1, ?_⟩
  rw [h1]
  simp only [String.data_append, List.count_append, hp, htq]
  decide

/-- Witness for the amended claim C1 at a concrete two-token subject and
non-empty affiliation. -/
theorem claim_C1_amended_witness :
    build_query "Lionel Messi" (some "Inter Miami")
      = "\"" ++ "Lionel Messi" ++ "\" \"" ++ "Inter Miami" ++ "\" lang:es -filter:retweets" ∧
    (build_query "Lionel Messi" (some "Inter Miami")).data.count '"' = 4 :=
  claim_C1_amended_conjunctive_query "Lionel Messi" "Inter Miami"
    (by decide) (by decide) (by decide)

/-- Claim C2: with the affiliation unset, the query carries exactly one
exact-phrase clause (two quote characters), that clause is the subject name
itself, and no affiliation clause exists; the OR tokens in the query occur
only inside the fixed unquoted keyword group. -/
theorem claim_C2_no_affiliation_single_phrase (player_name : String)
    (hp : player_name.data.count '"' = 0) :
    build_query player_name none
      = "\"" ++ player_name ++ "\" (gol OR asistencia OR partido) lang:es -filter:retweets" ∧
    (build_query player_name none).data.count '"' = 2 := by
  have h1 : build_query player_name none
      = "\"" ++ player_name ++ "\" (gol OR asistencia OR partido) lang:es -filter:retweets" := by
    simp [build_query, pyTruthy]
  refine ⟨h1, ?_⟩
  rw [h1]
  simp only [String.data_append, List.count_append, hp]
  decide

/-- Witness for claim C2 at a concrete subject name. -/
theorem claim_C2_witness :
    build_query "Lionel Messi" none
      = "\"" ++ "Lionel Messi" ++ "\" (gol OR asistencia OR partido) lang:es -filter:retweets" ∧
    (build_query "Lionel Messi" none).data.count '"' = 2 :=
  claim_C2_no_affiliation_single_phrase "Lionel Messi" (by decide)

/-- Claim C3, counterexample: the program's text normalization does not strip
URLs, mentions or tags — on the spec's own example it does not return
"check now". -/
theorem claim_C3_counterexample :
    normalize "Check http://x.co/a @user #tag\nNow" ≠ "check now" := by decide

/-- Claim C3, amended: the program's only text normalization is lowercasing;
it removes nothing (the output always has the length of the input), and on
the spec's example it returns the lowercased original with URL, mention, tag
and newline intact. -/
theorem claim_C3_amended_normalize_only_lowercases :
    (∀ x : String, (normalize x).length = x.length) ∧
    normalize "Check http://x.co/a @user #tag\nNow"
      = "check http://x.co/a @user #tag\nnow" := by
  constructor
  · intro x
    show (x.data.map pyCharLower).length = x.data.length
    rw [List.length_map]
  · decide

/-- Claim C4: any fault from the retrieval collaborator during the search call
is caught inside `search_player_tweets`, which returns the empty list instead
of propagating the fault. -/
theorem claim_C4_retrieval_fault_recovered
    (search_tweet : String → Except String (List RawTweet))
    (player_name : String) (team_name : Option String)
    (days_back : Int) (max_tweets : Nat) (msg : String)
    (hfail : search_tweet (build_query player_name team_name) = Except.error msg) :
    search_player_tweets true search_tweet player_name team_name days_back max_tweets
      = Except.ok [] := by
  simp [search_player_tweets, hfail]

/-- Witness for claim C4: a retrieval collaborator that always raises yields
the empty result list, not an error. -/
theorem claim_C4_witness :
    search_player_tweets true (fun _ => Except.error "Network timeout")
      "Lionel Messi" none 7 100 = Except.ok [] :=
  claim_C4_retrieval_fault_recovered (fun _ => Except.error "Network timeout")
    "Lionel Messi" none 7 100 "Network timeout" rfl

/-- Claim C5, counterexample: a whitespace-only player name is NOT rejected —
`main` only tests `if not player_name`, which is false for " ". With
credentials set and a retrieval collaborator returning no tweets, the run for
player name " " proceeds all the way to the "no tweets found" warning, i.e. a
retrieval attempt is made instead of an invalid-criteria failure. -/
theorem claim_C5_counterexample :
    (" ".data.all (fun c => c.isWhitespace) = true ∧ " " ≠ "") ∧
    main_run " " "" "user" "mail" "pw" true (Except.ok ()) (fun _ => Except.ok [])
        (fun _ => 0) 7 50 = RunOutcome.warningNoTweets ∧
    main_run " " "" "user" "mail" "pw" true (Except.ok ()) (fun _ => Except.ok [])
        (fun _ => 0) 7 50 ≠ RunOutcome.errorEmptyPlayer := by
  have h2 : main_run " " "" "user" "mail" "pw" true (Except.ok ()) (fun _ => Except.ok [])
      (fun _ => 0) 7 50 = RunOutcome.warningNoTweets := rfl
  refine ⟨by decide, h2, ?_⟩
  rw [h2]
  intro h
  cases h

/-- Claim C5, amended: only the genuinely empty player name fails fast — for
every configuration of credentials, login state, retrieval collaborator and
sentiment model, the run with player name "" stops with the empty-name error.
The outcome does not depend on the retrieval collaborator, so no retrieval is
attempted, and the functional flow contains no retry. -/
theorem claim_C5_amended_empty_name_fails_fast
    (team_name username email password : String)
    (cookie_login : Bool) (login_result : Except String Unit)
    (search_tweet : String → Except String (List RawTweet))
    (vader_compound : String → ℚ) (days_back : Int) (max_tweets : Nat) :
    main_run "" team_name username email password cookie_login login_result
      search_tweet vader_compound days_back max_tweets
      = RunOutcome.errorEmptyPlayer := rfl

/-- Claim C6: whenever the search operation returns a result list, that list
has at most `max_tweets` entries. -/
theorem claim_C6_result_limit_respected (logged_in : Bool)
    (search_tweet : String → Except String (List RawTweet))
    (player_name : String) (team_name : Option String)
    (days_back : Int) (max_tweets : Nat) (out : List TweetData)
    (hok : search_player_tweets logged_in search_tweet player_name team_name
            days_back max_tweets = Except.ok out) :
    out.length ≤ max_tweets := by
  unfold search_player_tweets at hok
  cases logged_in with
  | false =>
    simp at hok
  | true =>
    rw [if_pos rfl] at hok
    cases hres : search_tweet (build_query player_name team_name) with
    | error e =>
      rw [hres] at hok
      simp only [Except.ok.injEq] at hok
      rw [← hok]
      simp
    | ok tweets =>
      rw [hres] at hok
      simp only [Except.ok.injEq] at hok
      rw [← hok]
      exact collectTweets_length_le days_back max_tweets tweets [] (by simp)

/-- Witness for claim C6: one retrieved tweet under limit 100 yields a
one-element result list, within the limit. -/
theorem claim_C6_witness : (List.length [tweetToData sampleTweet]) ≤ 100 :=
  claim_C6_result_limit_respected true (fun _ => Except.ok [sampleTweet])
    "Messi" none 7 100 [tweetToData sampleTweet] rfl

/-- Claim C7: the sentiment label is always one of the three values
"positivo", "negativo", "neutral"; and the external-classifier token mapping
(modelled from the spec, since no token-mapping code exists under `src/`)
sends "POS" to positive, "NEG" to negative, and "NEU" or any other token to
neutral. -/
theorem claim_C7_label_closed_and_token_mapping :
    (∀ (vader_compound : ℚ) (text : String),
        (analyze_spanish vader_compound text).sentiment = "positivo" ∨
        (analyze_spanish vader_compound text).sentiment = "negativo" ∨
        (analyze_spanish vader_compound text).sentiment = "neutral") ∧
    label_of_token "POS" = "positivo" ∧
    label_of_token "NEG" = "negativo" ∧
    label_of_token "NEU" = "neutral" ∧
    ∀ t : String, t ≠ "POS" → t ≠ "NEG" → label_of_token t = "neutral" := by
  refine ⟨?_, rfl, rfl, rfl, ?_⟩
  · intro v text
    simp only [analyze_spanish]
    repeat' split
    all_goals simp
  · intro t h1 h2
    unfold label_of_token
    rw [if_neg h1, if_neg h2]

/-- Witness for claim C7: an unrecognized classifier token maps to neutral. -/
theorem claim_C7_witness : label_of_token "xyz" = "neutral" :=
  claim_C7_label_closed_and_token_mapping.2.2.2.2 "xyz" (by decide) (by decide)

/-- Claim C8: the program's text normalization (lowercasing) is idempotent. -/
theorem claim_C8_normalize_idempotent (x : String) :
    normalize (normalize x) = normalize x := by
  simp only [normalize, pyLower, List.map_map]
  congr 1
  exact List.map_congr_left (fun c _ => pyCharLower_idem c)

/-- Claim C9: given that the external VADER compound lies in [-1, 1] (its
documented range), the score produced by the analysis lies in [-1, 1]: the
keyword branches clamp with `min`/`max` against 1 and -1, and the fallback
branches pass the compound through. -/
theorem claim_C9_score_in_range (vader_compound : ℚ) (text : String)
    (h1 : -1 ≤ vader_compound) (h2 : vader_compound ≤ 1) :
    -1 ≤ (analyze_spanish vader_compound text).score ∧
    (analyze_spanish vader_compound text).score ≤ 1 := by
  have hp : (0:ℚ) ≤ (countKeywords positive_keywords (pyLower text) : ℚ) :=
    Nat.cast_nonneg _
  have hn : (0:ℚ) ≤ (countKeywords negative_keywords (pyLower text) : ℚ) :=
    Nat.cast_nonneg _
  simp only [analyze_spanish]
  repeat' split
  · constructor
    · apply le_min
      · nlinarith
      · norm_num
    · exact min_le_right _ _
  · constructor
    · exact le_max_right _ _
    · apply max_le
      · nlinarith
      · norm_num
  · exact ⟨h1, h2⟩
  · exact ⟨h1, h2⟩
  · exact ⟨h1, h2⟩

/-- Witness for claim C9: a neutral text with compound 0 scores inside
[-1, 1]. -/
theorem claim_C9_witness :
    -1 ≤ (analyze_spanish 0 "Qué noche").score ∧
    (analyze_spanish 0 "Qué noche").score ≤ 1 :=
  claim_C9_score_in_range 0 "Qué noche" (by norm_num) (by norm_num)

/-- Claim C10: when strictly more positive than negative keywords occur as
substrings of the lowercased text, the label is "positivo" and the score is
min(0.8 + 0.1·pos_count, 1.0) ≥ 0.9, independently of the VADER compound;
symmetrically for strictly more negative keywords the label is "negativo"
with score ≤ -0.9; with equal counts the score is the VADER compound and the
label follows the ±0.05 VADER thresholds. -/
theorem claim_C10_keyword_override (vader_compound : ℚ) (text : String) :
    (countKeywords negative_keywords (pyLower text)
        < countKeywords positive_keywords (pyLower text) →
      (analyze_spanish vader_compound text).sentiment = "positivo" ∧
      (analyze_spanish vader_compound text).score
        = min (4/5 + (countKeywords positive_keywords (pyLower text) : ℚ) * (1/10)) 1 ∧
      9/10 ≤ (analyze_spanish vader_compound text).score) ∧
    (countKeywords positive_keywords (pyLower text)
        < countKeywords negative_keywords (pyLower text) →
      (analyze_spanish vader_compound text).sentiment = "negativo" ∧
      (analyze_spanish vader_compound text).score ≤ -(9/10)) ∧
    (countKeywords positive_keywords (pyLower text)
        = countKeywords negative_keywords (pyLower text) →
      (analyze_spanish vader_compound text).score = vader_compound ∧
      (analyze_spanish vader_compound text).sentiment
        = (if 5/100 ≤ vader_compound then "positivo"
           else if vader_compound ≤ -(5/100) then "negativo" else "neutral")) := by
  refine ⟨?_, ?_, ?_⟩
  · intro h
    have h1 : (1:ℚ) ≤ (countKeywords positive_keywords (pyLower text) : ℚ) := by
      have hge : 1 ≤ countKeywords positive_keywords (pyLower text) := by omega
      exact_mod_cast hge
    simp only [analyze_spanish]
    rw [if_pos h]
    refine ⟨rfl, rfl, ?_⟩
    apply le_min
    · nlinarith
    · norm_num
  · intro h
    have hnot : ¬ countKeywords negative_keywords (pyLower text)
        < countKeywords positive_keywords (pyLower text) := by omega
    have h1 : (1:ℚ) ≤ (countKeywords negative_keywords (pyLower text) : ℚ) := by
      have : 1 ≤ countKeywords negative_keywords (pyLower text) := by omega
      exact_mod_cast this
    simp only [analyze_spanish]
    rw [if_neg hnot, if_pos h]
    refine ⟨rfl, ?_⟩
    apply max_le
    · nlinarith
    · norm_num
  · intro h
    have hnot1 : ¬ countKeywords negative_keywords (pyLower text)
        < countKeywords positive_keywords (pyLower text) := by omega
    have hnot2 : ¬ countKeywords positive_keywords (pyLower text)
        < countKeywords negative_keywords (pyLower text) := by omega
    simp only [analyze_spanish]
    rw [if_neg hnot1, if_neg hnot2]
    by_cases hv1 : 5/100 ≤ vader_compound
    · rw [if_pos hv1]
      exact ⟨rfl, by rw [if_pos hv1]⟩
    · rw [if_neg hv1]
      by_cases hv2 : vader_compound ≤ -(5/100)
      · rw [if_pos hv2]
        exact ⟨rfl, by rw [if_neg hv1, if_pos hv2]⟩
      · rw [if_neg hv2]
        exact ⟨rfl, by rw [if_neg hv1, if_neg hv2]⟩

/-- Witness for claim C10: the text "golazo" has two positive keyword hits
("gol", "golazo") and none negative, so even with a VADER compound of -1 the
label is "positivo" and the score is clamped to 1. -/
theorem claim_C10_witness :
    (analyze_spanish (-1) "golazo").sentiment = "positivo" ∧
    9/10 ≤ (analyze_spanish (-1) "golazo").score :=
  ⟨((claim_C10_keyword_override (-1) "golazo").1 (by decide)).1,
   ((claim_C10_keyword_override (-1) "golazo").1 (by decide)).2.2⟩

end FutbolSentiment
